import Mathlib

/-!
Shallow embedding of the ring-ml-person-detector service
(src/config.py, src/model.py, src/inference.py).

Conventions of the embedding:
* Python floats are modelled as rationals (the claims are about exact
  equalities and maxima, not rounding).
* Python exceptions are modelled by explicit error values: a function
  that may raise returns `Except`.
* The external YOLO model, the image codec and the filesystem are opaque
  effects; they are passed in as explicit outcome oracles
  (`decodeOf`, `predict`, `LoadOutcome`), and the embedded functions
  reproduce the source's control flow around those outcomes.
-/

namespace RingML

/-- Python exception classes that occur in `model.py` / `inference.py`.
`otherError` stands for any exception outside the classes the code
names in its `except` clauses. -/
inductive PyError where
  | valueError
  | runtimeError
  | osError
  | otherError
deriving DecidableEq, Repr

/-! ## config.py -/

/-- Error classes raised by `ConfigurationManager._load_config`:
`FileNotFoundError` when the path does not exist, the re-raised YAML
parse exception when `yaml.safe_load` fails, and `ValueError` when the
loaded document is empty/falsy ("Configuration file is empty or contains
invalid YAML."). -/
inductive PyConfigError where
  | fileNotFoundError
  | yamlError
  | valueError
deriving DecidableEq, Repr

/-- The spec's `ConfigInvalid` class: per the code's docstring,
`ValueError: If configuration file is empty or contains invalid YAML`;
the re-raised YAML parse exception also signals an invalid document.
`FileNotFoundError` is the spec's `ConfigNotFound`. -/
def configInvalidClass : PyConfigError → Bool
  | .fileNotFoundError => false
  | .yamlError => true
  | .valueError => true

/-- The `server:` section of the YAML document; every field optional. -/
structure ServerData where
  host : Option String := none
  port : Option Int := none
  reload : Option Bool := none
deriving DecidableEq, Repr

/-- The `model:` section of the YAML document; every field optional. -/
structure ModelData where
  size : Option String := none
  device : Option String := none
  custom_model_path : Option String := none
  models_dir : Option String := none
  download_on_startup : Option Bool := none
deriving DecidableEq, Repr

/-- The `inference:` section of the YAML document; every field optional. -/
structure InferenceData where
  conf_threshold : Option ℚ := none
  iou_threshold : Option ℚ := none
  max_detections : Option Int := none
  img_size : Option Int := none
  half_precision : Option Bool := none
  retina_masks : Option Bool := none
  verbose : Option Bool := none
deriving DecidableEq, Repr

/-- A parsed, non-empty YAML configuration document with its top-level
sections, each possibly absent (`self.config.get(section, {})`). -/
structure ConfigDoc where
  server : Option ServerData := none
  model : Option ModelData := none
  inference : Option InferenceData := none
  classes_to_detect : Option (List Int) := none
deriving DecidableEq, Repr

/-- `ServerConfig` dataclass of config.py. -/
structure ServerConfig where
  host : String := "127.0.0.1"
  port : Int := 8000
  reload : Bool := true
deriving DecidableEq, Repr

/-- `ModelConfig` dataclass of config.py. -/
structure ModelConfig where
  size : String := "small"
  device : String := "cpu"
  custom_model_path : Option String := none
  models_dir : String := "./models"
  download_on_startup : Bool := true
deriving DecidableEq, Repr

/-- `InferenceConfig` dataclass of config.py. -/
structure InferenceConfig where
  conf_threshold : ℚ := 0.25
  iou_threshold : ℚ := 0.45
  max_detections : Int := 300
  img_size : Int := 640
  half_precision : Bool := false
  retina_masks : Bool := true
  verbose : Bool := false
deriving DecidableEq, Repr

/-- What `self.config_path.exists()` / `yaml.safe_load` produce for the
configuration source: the path may be missing, the YAML parse may raise,
or it yields a document (`none` = a falsy document such as an empty
file, `some doc` = a non-empty mapping). -/
inductive LoadOutcome where
  | missing
  | parseFail
  | parsed (doc : Option ConfigDoc)
deriving DecidableEq

/-- `ConfigurationManager._load_config`: `FileNotFoundError` when the
path does not exist; the YAML exception re-raised when parsing fails;
`ValueError` when `not config`; otherwise the document. -/
def load_config (src : LoadOutcome) : Except PyConfigError ConfigDoc :=
  match src with
  | .missing => .error .fileNotFoundError
  | .parseFail => .error .yamlError
  | .parsed none => .error .valueError
  | .parsed (some doc) => .ok doc

/-- `ConfigurationManager.get_server_config`. -/
def get_server_config (c : ConfigDoc) : ServerConfig :=
  let server_data := c.server.getD {}
  { host := server_data.host.getD "127.0.0.1"
    port := server_data.port.getD 8000
    reload := server_data.reload.getD true }

/-- `ConfigurationManager.get_model_config`. -/
def get_model_config (c : ConfigDoc) : ModelConfig :=
  let model_data := c.model.getD {}
  { size := model_data.size.getD "small"
    device := model_data.device.getD "cpu"
    custom_model_path := model_data.custom_model_path
    models_dir := model_data.models_dir.getD "./models"
    download_on_startup := model_data.download_on_startup.getD true }

/-- `ConfigurationManager.get_inference_config`. -/
def get_inference_config (c : ConfigDoc) : InferenceConfig :=
  let inference_data := c.inference.getD {}
  { conf_threshold := inference_data.conf_threshold.getD 0.25
    iou_threshold := inference_data.iou_threshold.getD 0.45
    max_detections := inference_data.max_detections.getD 300
    img_size := inference_data.img_size.getD 640
    half_precision := inference_data.half_precision.getD false
    retina_masks := inference_data.retina_masks.getD true
    verbose := inference_data.verbose.getD false }

/-- `ConfigurationManager.get_classes_to_detect`. -/
def get_classes_to_detect (c : ConfigDoc) : List Int :=
  c.classes_to_detect.getD [0]

/-! ## model.py -/

/-- One raw detection from the external model: class id, confidence,
bounding box `[x1, y1, x2, y2]`. -/
structure RawBox where
  cls : Int
  conf : ℚ
  bbox : List ℚ
deriving DecidableEq, Repr

/-- One element of the list returned by `model.predict`: its `.boxes`
collection (the `None`/empty cases of the source both show up here as
the empty list of raw boxes). -/
structure YoloResult where
  boxes : List RawBox
deriving DecidableEq, Repr

/-- One entry of `person_boxes` in the response. -/
structure DetectionBox where
  confidence : ℚ
  bbox : List ℚ
deriving DecidableEq, Repr

/-- The dictionary returned by `_process_results` / `detect_persons`. -/
structure DetectionResult where
  filename : String
  person_detected : Bool
  confidence : ℚ
  num_persons : Nat
  person_boxes : List DetectionBox
deriving DecidableEq, Repr

/-- A decoded RGB pixel buffer (contents opaque to the claims). -/
structure RGBImage where
  data : List Nat
deriving DecidableEq

/-- The model-parameter dictionary built in `PersonDetector._load_model`. -/
structure ModelParams where
  conf : ℚ
  iou : ℚ
  imgsz : Int
  half : Bool
  device : String
  max_det : Int
  classes : List Int
  retina_masks : Bool
  verbose : Bool
deriving DecidableEq, Repr

/-- `PersonDetector._load_model`, parameter-dictionary part: every key
of `self._model_params` as the source assigns it (`retina_masks` and
`verbose` are literal constants in the source). -/
def load_model_params (inference_config : InferenceConfig) (device : String)
    (classes_to_detect : List Int) : ModelParams :=
  { conf := inference_config.conf_threshold
    iou := inference_config.iou_threshold
    imgsz := inference_config.img_size
    half := inference_config.half_precision
    device := device
    max_det := inference_config.max_detections
    classes := classes_to_detect
    retina_masks := true
    verbose := false }

/-- The inner loop body of `_process_results`: append the kept box and
fold its confidence into the running maximum. -/
def processBox (acc : List DetectionBox × ℚ) (b : RawBox) : List DetectionBox × ℚ :=
  (acc.1 ++ [{ confidence := b.conf, bbox := b.bbox }], max acc.2 b.conf)

/-- One iteration of the outer `for result in results` loop: filter the
result's boxes to the configured classes (`torch.isin(result.boxes.cls,
classes)`), then accumulate each kept detection in source order. -/
def processResult (classes_to_detect : List Int)
    (acc : List DetectionBox × ℚ) (r : YoloResult) : List DetectionBox × ℚ :=
  (r.boxes.filter (fun b => classes_to_detect.contains b.cls)).foldl processBox acc

/-- `PersonDetector._process_results`. -/
def process_results (classes_to_detect : List Int)
    (results : List YoloResult) (filename : String) : DetectionResult :=
  let acc := results.foldl (processResult classes_to_detect) ([], 0)
  { filename := filename
    person_detected := decide (acc.1.length > 0)
    confidence := acc.2
    num_persons := acc.1.length
    person_boxes := acc.1 }

/-- The safe fallback response literal of `detect_persons`. -/
def fallbackResult (filename : String) : DetectionResult :=
  { filename := filename
    person_detected := false
    confidence := 0
    num_persons := 0
    person_boxes := [] }

/-- The `except` clauses of `detect_persons`: `ValueError` re-raises,
`RuntimeError`/`OSError` degrade to the safe fallback response, any
other exception propagates. -/
def detectExceptClauses (filename : String) (e : PyError) :
    Except PyError DetectionResult :=
  match e with
  | .valueError => .error .valueError
  | .runtimeError => .ok (fallbackResult filename)
  | .osError => .ok (fallbackResult filename)
  | .otherError => .error .otherError

/-- `PersonDetector.detect_persons` on a `bytes` input. `decodeOf`
gives the outcome of `_decode_image_bytes` (which only ever raises
`ValueError`: its `except Exception` clause re-raises as `ValueError`);
`predict` gives the outcome of `self.model.predict` including the lazy
`_load_model` (whose failure is a `RuntimeError`). -/
def detect_persons (classes_to_detect : List Int)
    (decodeOf : List Nat → Except PyError RGBImage)
    (predict : RGBImage → Except PyError (List YoloResult))
    (image_bytes : List Nat) (filename : String) :
    Except PyError DetectionResult :=
  match decodeOf image_bytes with
  | .error e => detectExceptClauses filename e
  | .ok image =>
    match predict image with
    | .error e => detectExceptClauses filename e
    | .ok results => .ok (process_results classes_to_detect results filename)

/-! ## inference.py -/

/-- `AppState` enum of inference.py. -/
inductive AppState where
  | initializing
  | ready
  | shuttingDown
deriving DecidableEq, Repr

/-- The part of the `PersonDetector` object state that the request
handlers consult (the model itself is lazy, behind `predict`). -/
structure PersonDetector where
  classes_to_detect : List Int
deriving DecidableEq, Repr

/-- The module-level globals `state` and `model` of inference.py
(both initialised to `None`). -/
structure Globals where
  state : Option AppState
  model : Option PersonDetector
deriving DecidableEq, Repr

/-- The `lifespan` startup logic: set `state = INITIALIZING`, load the
configuration (an exception escapes `lifespan`, leaving the globals as
set so far), construct the `PersonDetector` (which stores the configs
but does not load the model), then set `state = READY`. -/
def lifespanStartup (configLoad : Except PyConfigError ConfigDoc) : Globals :=
  match configLoad with
  | .error _ => { state := some .initializing, model := none }
  | .ok doc =>
    { state := some .ready
      model := some { classes_to_detect := get_classes_to_detect doc } }

/-- An HTTP outcome of a handler: a JSON body with status 200, or an
`HTTPException` with the given status code. -/
inductive HttpResponse where
  | ok (body : DetectionResult)
  | error (status : Nat)
deriving DecidableEq, Repr

/-- `readiness` (GET /readyz): 503 when `state != AppState.READY`, 503
when `model is None`, else an empty 200; returns the status code. -/
def readiness (g : Globals) : Nat :=
  if g.state ≠ some AppState.ready then 503
  else
    match g.model with
    | none => 503
    | some _ => 200

/-- `liveness` (GET /livez): unconditional 200. -/
def liveness : Nat := 200

/-- `detect_person` (POST /detect): 503 when not ready or no model,
400 on an empty upload, then `detect_persons`; an exception escaping
`detect_persons` becomes a 500 (`except Exception`). -/
def detect_person (g : Globals)
    (decodeOf : List Nat → Except PyError RGBImage)
    (predict : RGBImage → Except PyError (List YoloResult))
    (file_bytes : List Nat) (file_filename : Option String) : HttpResponse :=
  if g.state ≠ some AppState.ready then .error 503
  else
    match g.model with
    | none => .error 503
    | some m =>
      if file_bytes = [] then .error 400
      else
        let filename := file_filename.getD "uploaded_image"
        match detect_persons m.classes_to_detect decodeOf predict file_bytes filename with
        | .ok result => .ok result
        | .error _ => .error 500

/-! ## Characterisation of the `_process_results` fold -/

/-- The flat list of raw detections the loop of `_process_results`
keeps: per result, the boxes whose class id is in the configured
classes, in source order. -/
def keptBoxes (classes_to_detect : List Int) (results : List YoloResult) : List RawBox :=
  results.flatMap (fun r => r.boxes.filter (fun b => classes_to_detect.contains b.cls))

/-- The `{"confidence": ..., "bbox": ...}` record appended per kept box. -/
def toDetectionBox (b : RawBox) : DetectionBox :=
  { confidence := b.conf, bbox := b.bbox }

/-- Running maximum of confidences, seeded with `a`
(`max_confidence = max(max_confidence, confidence)`). -/
def foldMaxConf (a : ℚ) (l : List RawBox) : ℚ :=
  l.foldl (fun m b => max m b.conf) a

/-! ## Concrete oracles for sample runs -/

/-- A decode oracle that always succeeds. -/
def demoDecode : List Nat → Except PyError RGBImage :=
  fun _ => .ok ⟨[]⟩

/-- A decode oracle for undecodable bytes: `_decode_image_bytes` only
ever raises `ValueError`. -/
def demoDecodeFail : List Nat → Except PyError RGBImage :=
  fun _ => .error .valueError

/-- The rational 87/100, given by its reduced fraction so that
`decide` can evaluate comparisons on it. -/
def conf087 : ℚ := ⟨87, 100, by decide, by decide⟩

/-- The rational 9/10 in reduced form. -/
def conf09 : ℚ := ⟨9, 10, by decide, by decide⟩

/-- One person (class 0, confidence 0.87) and one dog (class 16,
confidence 0.9) in a single result, as in the spec's worked scenario. -/
def demoResults : List YoloResult :=
  [⟨[{ cls := 0, conf := conf087, bbox := [10, 20, 30, 40] },
     { cls := 16, conf := conf09, bbox := [50, 60, 70, 80] }]⟩]

/-- A run with a single non-target detection (dog, class 16). -/
def dogOnlyResults : List YoloResult :=
  [⟨[{ cls := 16, conf := conf09, bbox := [50, 60, 70, 80] }]⟩]

/-- A predict oracle returning `demoResults`. -/
def demoPredict : RGBImage → Except PyError (List YoloResult) :=
  fun _ => .ok demoResults

/-- A predict oracle whose lazy `_load_model` fails: the failure
reaches `detect_persons` as the `RuntimeError` `_load_model` raises. -/
def loadFailPredict : RGBImage → Except PyError (List YoloResult) :=
  fun _ => .error .runtimeError

theorem foldMaxConf_append (a : ℚ) (l₁ l₂ : List RawBox) :
    foldMaxConf a (l₁ ++ l₂) = foldMaxConf (foldMaxConf a l₁) l₂ := by
  simp [foldMaxConf, List.foldl_append]

theorem le_foldMaxConf_init (a : ℚ) (l : List RawBox) : a ≤ foldMaxConf a l := by
  induction l generalizing a with
  | nil => simp [foldMaxConf]
  | cons c l ih =>
    calc a ≤ max a c.conf := le_max_left _ _
    _ ≤ foldMaxConf (max a c.conf) l := ih _
    _ = foldMaxConf a (c :: l) := rfl

theorem conf_le_foldMaxConf (a : ℚ) (l : List RawBox) (b : RawBox) (hb : b ∈ l) :
    b.conf ≤ foldMaxConf a l := by
  induction l generalizing a with
  | nil => cases hb
  | cons c l ih =>
    rcases List.mem_cons.mp hb with h | h
    · subst h
      calc b.conf ≤ max a b.conf := le_max_right _ _
      _ ≤ foldMaxConf (max a b.conf) l := le_foldMaxConf_init _ _
      _ = foldMaxConf a (b :: l) := rfl
    · show b.conf ≤ foldMaxConf (max a c.conf) l
      exact ih _ h

theorem foldMaxConf_eq_or_mem (a : ℚ) (l : List RawBox) :
    foldMaxConf a l = a ∨ ∃ b ∈ l, foldMaxConf a l = b.conf := by
  induction l generalizing a with
  | nil => exact Or.inl rfl
  | cons c l ih =>
    have hstep : foldMaxConf a (c :: l) = foldMaxConf (max a c.conf) l := rfl
    rcases ih (max a c.conf) with h | ⟨b, hb, he⟩
    · rcases max_cases a c.conf with ⟨h1, _⟩ | ⟨h1, _⟩
      · exact Or.inl (by rw [hstep, h, h1])
      · exact Or.inr ⟨c, List.mem_cons_self _ _, by rw [hstep, h, h1]⟩
    · exact Or.inr ⟨b, List.mem_cons_of_mem _ hb, by rw [hstep, he]⟩

theorem foldMaxConf_mem_of_nonneg (l : List RawBox) (hne : l ≠ [])
    (hnn : ∀ b ∈ l, 0 ≤ b.conf) :
    ∃ b ∈ l, foldMaxConf 0 l = b.conf := by
  rcases foldMaxConf_eq_or_mem 0 l with h | h
  · rcases l with _ | ⟨c, l⟩
    · exact absurd rfl hne
    · refine ⟨c, List.mem_cons_self _ _, ?_⟩
      have h1 : c.conf ≤ foldMaxConf 0 (c :: l) :=
        conf_le_foldMaxConf _ _ c (List.mem_cons_self _ _)
      rw [h] at h1
      rw [h]
      exact le_antisymm (hnn c (List.mem_cons_self _ _)) h1
  · exact h

theorem foldl_processBox (l : List RawBox) (acc : List DetectionBox × ℚ) :
    l.foldl processBox acc = (acc.1 ++ l.map toDetectionBox, foldMaxConf acc.2 l) := by
  induction l generalizing acc with
  | nil => simp [foldMaxConf]
  | cons b l ih =>
    rw [List.foldl_cons, ih]
    simp [processBox, toDetectionBox, foldMaxConf]

theorem foldl_processResult (classes_to_detect : List Int) (rs : List YoloResult)
    (acc : List DetectionBox × ℚ) :
    rs.foldl (processResult classes_to_detect) acc
      = (acc.1 ++ (keptBoxes classes_to_detect rs).map toDetectionBox,
         foldMaxConf acc.2 (keptBoxes classes_to_detect rs)) := by
  induction rs generalizing acc with
  | nil => simp [keptBoxes, foldMaxConf]
  | cons r rs ih =>
    rw [List.foldl_cons,
      show processResult classes_to_detect acc r
          = (acc.1 ++ ((r.boxes.filter
                (fun b => classes_to_detect.contains b.cls)).map toDetectionBox),
             foldMaxConf acc.2
               (r.boxes.filter (fun b => classes_to_detect.contains b.cls)))
        from foldl_processBox _ _,
      ih]
    simp [keptBoxes, List.flatMap_cons, foldMaxConf_append, List.append_assoc]

/-- What `_process_results` computes, phrased over the flat list of
kept raw detections. -/
theorem process_results_spec (classes_to_detect : List Int)
    (results : List YoloResult) (filename : String) :
    process_results classes_to_detect results filename =
      { filename := filename
        person_detected := decide (0 < (keptBoxes classes_to_detect results).length)
        confidence := foldMaxConf 0 (keptBoxes classes_to_detect results)
        num_persons := (keptBoxes classes_to_detect results).length
        person_boxes := (keptBoxes classes_to_detect results).map toDetectionBox } := by
  unfold process_results
  rw [foldl_processResult]
  simp

/-- With no kept detections, `_process_results` returns exactly the
fallback-shaped result. -/
theorem process_results_of_kept_nil (classes_to_detect : List Int)
    (results : List YoloResult) (filename : String)
    (h : keptBoxes classes_to_detect results = []) :
    process_results classes_to_detect results filename = fallbackResult filename := by
  rw [process_results_spec, h]
  simp [fallbackResult, foldMaxConf]

/-! ## Control-flow lemmas for `detect_persons` -/

theorem detect_persons_decode_error (classes_to_detect : List Int)
    (decodeOf : List Nat → Except PyError RGBImage)
    (predict : RGBImage → Except PyError (List YoloResult))
    (image_bytes : List Nat) (filename : String) (e : PyError)
    (hdec : decodeOf image_bytes = .error e) :
    detect_persons classes_to_detect decodeOf predict image_bytes filename
      = detectExceptClauses filename e := by
  unfold detect_persons
  rw [hdec]

theorem detect_persons_predict_error (classes_to_detect : List Int)
    (decodeOf : List Nat → Except PyError RGBImage)
    (predict : RGBImage → Except PyError (List YoloResult))
    (image_bytes : List Nat) (filename : String) (img : RGBImage) (e : PyError)
    (hdec : decodeOf image_bytes = .ok img)
    (hpred : predict img = .error e) :
    detect_persons classes_to_detect decodeOf predict image_bytes filename
      = detectExceptClauses filename e := by
  unfold detect_persons
  simp only [hdec, hpred]

theorem detect_persons_predict_ok (classes_to_detect : List Int)
    (decodeOf : List Nat → Except PyError RGBImage)
    (predict : RGBImage → Except PyError (List YoloResult))
    (image_bytes : List Nat) (filename : String) (img : RGBImage)
    (results : List YoloResult)
    (hdec : decodeOf image_bytes = .ok img)
    (hpred : predict img = .ok results) :
    detect_persons classes_to_detect decodeOf predict image_bytes filename
      = .ok (process_results classes_to_detect results filename) := by
  unfold detect_persons
  simp only [hdec, hpred]

/-! ## Claims -/

/-- Claim C2 (confirmed): `detect_persons` preserves the asymmetric
failure policy. A validation-class error (`ValueError`) raised while
decoding the image bytes propagates to the caller, while an
inference-runtime-class error (`RuntimeError`/`OSError`) raised during
model invocation is caught and converted into the safe empty result
`{filename, person_detected := false, confidence := 0,
num_persons := 0, person_boxes := []}`. -/
theorem C2_failure_asymmetry (classes_to_detect : List Int)
    (decodeOf : List Nat → Except PyError RGBImage)
    (predict : RGBImage → Except PyError (List YoloResult))
    (image_bytes : List Nat) (filename : String) :
    (decodeOf image_bytes = .error .valueError →
      detect_persons classes_to_detect decodeOf predict image_bytes filename
        = .error .valueError)
    ∧ (∀ img, decodeOf image_bytes = .ok img →
        predict img = .error .runtimeError ∨ predict img = .error .osError →
        detect_persons classes_to_detect decodeOf predict image_bytes filename
          = .ok (fallbackResult filename)) := by
  constructor
  · intro hdec
    rw [detect_persons_decode_error _ _ _ _ _ _ hdec]
    rfl
  · intro img hdec hfail
    rcases hfail with h | h <;>
      rw [detect_persons_predict_error _ _ _ _ _ _ _ hdec h] <;> rfl

/-- Witness for C2 at concrete inputs: an undecodable upload raises
`ValueError`; a runtime inference failure degrades to the safe empty
result. -/
theorem C2_failure_asymmetry_witness :
    detect_persons [0] demoDecodeFail demoPredict [1] "cam.jpg"
      = .error .valueError
    ∧ detect_persons [0] demoDecode loadFailPredict [1] "cam.jpg"
      = .ok (fallbackResult "cam.jpg") :=
  ⟨(C2_failure_asymmetry [0] demoDecodeFail demoPredict [1] "cam.jpg").1 rfl,
   (C2_failure_asymmetry [0] demoDecode loadFailPredict [1] "cam.jpg").2
     ⟨[]⟩ rfl (Or.inl rfl)⟩

/-- Claim C4 (confirmed): aggregation keeps exactly the detections
whose class id is in the configured classes, in the order the detector
returned them; `num_persons` is their count, `person_detected` holds
iff the count is positive, and (given non-negative confidences, as the
data model's `confidence ∈ [0,1]` guarantees) `confidence` is the
maximum over the kept boxes: an upper bound that is attained. -/
theorem C4_aggregation (classes_to_detect : List Int) (results : List YoloResult)
    (filename : String)
    (hnn : ∀ b ∈ keptBoxes classes_to_detect results, 0 ≤ b.conf) :
    (process_results classes_to_detect results filename).person_boxes
        = (keptBoxes classes_to_detect results).map toDetectionBox
    ∧ (process_results classes_to_detect results filename).num_persons
        = (keptBoxes classes_to_detect results).length
    ∧ ((process_results classes_to_detect results filename).person_detected = true
        ↔ 0 < (keptBoxes classes_to_detect results).length)
    ∧ (∀ b ∈ keptBoxes classes_to_detect results,
        b.conf ≤ (process_results classes_to_detect results filename).confidence)
    ∧ (keptBoxes classes_to_detect results ≠ [] →
        ∃ b ∈ keptBoxes classes_to_detect results,
          (process_results classes_to_detect results filename).confidence = b.conf) := by
  rw [process_results_spec]
  refine ⟨rfl, rfl, by simp, ?_, ?_⟩
  · intro b hb
    exact conf_le_foldMaxConf 0 _ b hb
  · intro hne
    exact foldMaxConf_mem_of_nonneg _ hne hnn

/-- Witness for C4 on the spec's worked scenario: one person at 0.87
and one dog (class 16) at 0.9, target classes `[0]`. -/
theorem C4_aggregation_witness :
    (process_results [0] demoResults "cam.jpg").person_boxes
        = (keptBoxes [0] demoResults).map toDetectionBox
    ∧ (process_results [0] demoResults "cam.jpg").num_persons
        = (keptBoxes [0] demoResults).length
    ∧ ((process_results [0] demoResults "cam.jpg").person_detected = true
        ↔ 0 < (keptBoxes [0] demoResults).length)
    ∧ (∀ b ∈ keptBoxes [0] demoResults,
        b.conf ≤ (process_results [0] demoResults "cam.jpg").confidence)
    ∧ (keptBoxes [0] demoResults ≠ [] →
        ∃ b ∈ keptBoxes [0] demoResults,
          (process_results [0] demoResults "cam.jpg").confidence = b.conf) :=
  C4_aggregation [0] demoResults "cam.jpg" (by decide)

/-- Claim C9 (confirmed): the degraded fallback result produced when
inference raises a runtime error is identical, field for field, to the
result produced for a successfully processed image with zero
target-class detections; a caller of `detect_persons` cannot
distinguish the two. -/
theorem C9_degraded_indistinguishable (classes_to_detect : List Int)
    (results : List YoloResult)
    (decodeOf : List Nat → Except PyError RGBImage)
    (predict : RGBImage → Except PyError (List YoloResult))
    (image_bytes : List Nat) (filename : String) (img : RGBImage)
    (hdec : decodeOf image_bytes = .ok img)
    (hfail : predict img = .error .runtimeError)
    (hkept : keptBoxes classes_to_detect results = []) :
    detect_persons classes_to_detect decodeOf predict image_bytes filename
      = detect_persons classes_to_detect decodeOf (fun _ => .ok results)
          image_bytes filename
    ∧ detect_persons classes_to_detect decodeOf predict image_bytes filename
      = .ok (fallbackResult filename) := by
  rw [detect_persons_predict_error _ _ _ _ _ _ _ hdec hfail,
    detect_persons_predict_ok _ _ _ _ _ _ _ hdec rfl,
    process_results_of_kept_nil _ _ _ hkept]
  exact ⟨rfl, rfl⟩

/-- Witness for C9: a degraded run and a run whose only detection is a
dog (class 16, not a target class) return the same response. -/
theorem C9_degraded_indistinguishable_witness :
    detect_persons [0] demoDecode loadFailPredict [1] "cam.jpg"
      = detect_persons [0] demoDecode (fun _ => .ok dogOnlyResults) [1] "cam.jpg"
    ∧ detect_persons [0] demoDecode loadFailPredict [1] "cam.jpg"
      = .ok (fallbackResult "cam.jpg") :=
  C9_degraded_indistinguishable [0] dogOnlyResults demoDecode loadFailPredict
    [1] "cam.jpg" ⟨[]⟩ rfl rfl (by decide)

/-- Claim C10 (confirmed): every result `detect_persons` returns, on
the normal and on the fallback path, satisfies the response invariant:
`num_persons` equals the length of `person_boxes`; `person_detected`
holds iff `num_persons > 0`; and, assuming every raw confidence is
non-negative, `confidence` is 0 for an empty box list and the attained
maximum of the boxes' confidences otherwise. -/
theorem C10_result_invariant (classes_to_detect : List Int)
    (decodeOf : List Nat → Except PyError RGBImage)
    (predict : RGBImage → Except PyError (List YoloResult))
    (image_bytes : List Nat) (filename : String) (res : DetectionResult)
    (hok : detect_persons classes_to_detect decodeOf predict image_bytes filename
        = .ok res)
    (hnn : ∀ img rs, predict img = .ok rs → ∀ r ∈ rs, ∀ b ∈ r.boxes, 0 ≤ b.conf) :
    res.num_persons = res.person_boxes.length
    ∧ (res.person_detected = true ↔ 0 < res.num_persons)
    ∧ (res.person_boxes = [] → res.confidence = 0)
    ∧ (res.person_boxes ≠ [] →
        (∃ db ∈ res.person_boxes, res.confidence = db.confidence)
        ∧ ∀ db ∈ res.person_boxes, db.confidence ≤ res.confidence) := by
  cases hdec : decodeOf image_bytes with
  | error e =>
    rw [detect_persons_decode_error _ _ _ _ _ _ hdec] at hok
    cases e with
    | valueError => simp [detectExceptClauses] at hok
    | otherError => simp [detectExceptClauses] at hok
    | runtimeError =>
      simp [detectExceptClauses] at hok
      subst hok
      simp [fallbackResult]
    | osError =>
      simp [detectExceptClauses] at hok
      subst hok
      simp [fallbackResult]
  | ok img =>
    cases hpred : predict img with
    | error e =>
      rw [detect_persons_predict_error _ _ _ _ _ _ _ hdec hpred] at hok
      cases e with
      | valueError => simp [detectExceptClauses] at hok
      | otherError => simp [detectExceptClauses] at hok
      | runtimeError =>
        simp [detectExceptClauses] at hok
        subst hok
        simp [fallbackResult]
      | osError =>
        simp [detectExceptClauses] at hok
        subst hok
        simp [fallbackResult]
    | ok rs =>
      rw [detect_persons_predict_ok _ _ _ _ _ _ _ hdec hpred] at hok
      simp at hok
      subst hok
      have hkept : ∀ b ∈ keptBoxes classes_to_detect rs, 0 ≤ b.conf := by
        intro b hb
        unfold keptBoxes at hb
        rcases List.mem_flatMap.mp hb with ⟨r, hr, hbf⟩
        exact hnn img rs hpred r hr b (List.mem_filter.mp hbf).1
      rw [process_results_spec]
      refine ⟨by simp, by simp, ?_, ?_⟩
      · intro hmap
        have h0 : keptBoxes classes_to_detect rs = [] := by
          simpa using hmap
        simp [h0, foldMaxConf]
      · intro hmap
        have hne : keptBoxes classes_to_detect rs ≠ [] := by
          intro h0
          exact hmap (by simp [h0])
        obtain ⟨b, hb, he⟩ := foldMaxConf_mem_of_nonneg _ hne hkept
        constructor
        · exact ⟨toDetectionBox b, List.mem_map_of_mem _ hb, he⟩
        · intro db hdb
          rcases List.mem_map.mp hdb with ⟨b', hb', rfl⟩
          exact conf_le_foldMaxConf 0 _ b' hb'

/-- Witness for C10 on a concrete successful run. -/
theorem C10_result_invariant_witness :
    (process_results [0] demoResults "ring.jpg").num_persons
        = (process_results [0] demoResults "ring.jpg").person_boxes.length
    ∧ ((process_results [0] demoResults "ring.jpg").person_detected = true
        ↔ 0 < (process_results [0] demoResults "ring.jpg").num_persons)
    ∧ ((process_results [0] demoResults "ring.jpg").person_boxes = []
        → (process_results [0] demoResults "ring.jpg").confidence = 0)
    ∧ ((process_results [0] demoResults "ring.jpg").person_boxes ≠ [] →
        (∃ db ∈ (process_results [0] demoResults "ring.jpg").person_boxes,
            (process_results [0] demoResults "ring.jpg").confidence = db.confidence)
        ∧ ∀ db ∈ (process_results [0] demoResults "ring.jpg").person_boxes,
            db.confidence ≤ (process_results [0] demoResults "ring.jpg").confidence) :=
  C10_result_invariant [0] demoDecode demoPredict [1] "ring.jpg"
    (process_results [0] demoResults "ring.jpg") rfl
    (fun _ rs h => by
      simp [demoPredict] at h
      subst h
      decide)

/-- Claim C5 (confirmed): for every request to /readyz or /detect, if
the service state is not READY or the model handle is absent, the
handler answers 503 without further work (the response is fixed before
the upload or the detector oracles are consulted); /readyz answers 200
exactly when the state is READY and the model handle is present. -/
theorem C5_readiness_gate (g : Globals)
    (decodeOf : List Nat → Except PyError RGBImage)
    (predict : RGBImage → Except PyError (List YoloResult))
    (file_bytes : List Nat) (file_filename : Option String) :
    (readiness g = 200 ↔ (g.state = some AppState.ready ∧ g.model ≠ none))
    ∧ (¬(g.state = some AppState.ready ∧ g.model ≠ none) →
        readiness g = 503
        ∧ detect_person g decodeOf predict file_bytes file_filename = .error 503) := by
  by_cases hs : g.state = some AppState.ready
  · cases hm : g.model with
    | none =>
      constructor
      · simp [readiness, hs, hm]
      · intro _
        simp [readiness, detect_person, hs, hm]
    | some m =>
      constructor
      · simp [readiness, hs, hm]
      · intro h
        exact absurd ⟨hs, by simp [hm]⟩ h
  · constructor
    · simp [readiness, hs]
    · intro _
      simp [readiness, detect_person, hs]

/-- Witness for C5: an initializing service with no model handle gets
503 from both handlers. -/
theorem C5_readiness_gate_witness :
    readiness ⟨some AppState.initializing, none⟩ = 503
    ∧ detect_person ⟨some AppState.initializing, none⟩ demoDecode demoPredict
        [1] (some "cam.jpg") = .error 503 :=
  (C5_readiness_gate ⟨some AppState.initializing, none⟩ demoDecode demoPredict
      [1] (some "cam.jpg")).2 (by simp)

/-- Claim C6 (confirmed): each sub-config accessor returns the
documented default for any absent field: host 127.0.0.1, port 8000,
model size small, device cpu, confidence 0.25, IoU 0.45, max
detections 300, image size 640, and target classes `[0]` (person). -/
theorem C6_accessor_defaults (doc : ConfigDoc) :
    ((doc.server.getD {}).host = none → (get_server_config doc).host = "127.0.0.1")
    ∧ ((doc.server.getD {}).port = none → (get_server_config doc).port = 8000)
    ∧ ((doc.model.getD {}).size = none → (get_model_config doc).size = "small")
    ∧ ((doc.model.getD {}).device = none → (get_model_config doc).device = "cpu")
    ∧ ((doc.inference.getD {}).conf_threshold = none →
        (get_inference_config doc).conf_threshold = 0.25)
    ∧ ((doc.inference.getD {}).iou_threshold = none →
        (get_inference_config doc).iou_threshold = 0.45)
    ∧ ((doc.inference.getD {}).max_detections = none →
        (get_inference_config doc).max_detections = 300)
    ∧ ((doc.inference.getD {}).img_size = none →
        (get_inference_config doc).img_size = 640)
    ∧ (doc.classes_to_detect = none → get_classes_to_detect doc = [0]) := by
  refine ⟨?_, ?_, ?_, ?_, ?_, ?_, ?_, ?_, ?_⟩ <;>
    intro h <;>
    simp [get_server_config, get_model_config, get_inference_config,
      get_classes_to_detect, h]

/-- Witness for C6 at the document with every field absent. -/
theorem C6_accessor_defaults_witness :
    (get_server_config {}).host = "127.0.0.1"
    ∧ (get_server_config {}).port = 8000
    ∧ (get_model_config {}).size = "small"
    ∧ (get_model_config {}).device = "cpu"
    ∧ (get_inference_config {}).conf_threshold = 0.25
    ∧ (get_inference_config {}).iou_threshold = 0.45
    ∧ (get_inference_config {}).max_detections = 300
    ∧ (get_inference_config {}).img_size = 640
    ∧ get_classes_to_detect {} = [0] :=
  ⟨(C6_accessor_defaults {}).1 rfl,
   (C6_accessor_defaults {}).2.1 rfl,
   (C6_accessor_defaults {}).2.2.1 rfl,
   (C6_accessor_defaults {}).2.2.2.1 rfl,
   (C6_accessor_defaults {}).2.2.2.2.1 rfl,
   (C6_accessor_defaults {}).2.2.2.2.2.1 rfl,
   (C6_accessor_defaults {}).2.2.2.2.2.2.1 rfl,
   (C6_accessor_defaults {}).2.2.2.2.2.2.2.1 rfl,
   (C6_accessor_defaults {}).2.2.2.2.2.2.2.2 rfl⟩

/-- Claim C7 (confirmed): configuration load fails with
`FileNotFoundError` (the spec's ConfigNotFound) when the source path
does not exist, and with an invalid-document error — the `ValueError`
for an empty/falsy document, or the re-raised YAML parse exception —
(the spec's ConfigInvalid) when the document is empty or malformed; in
every failing case `load_config` returns no configuration and the
lifecycle never reaches READY. -/
theorem C7_config_load_failure (src : LoadOutcome) :
    (src = .missing → load_config src = .error .fileNotFoundError)
    ∧ (src = .parseFail ∨ src = .parsed none →
        ∃ e, load_config src = .error e ∧ configInvalidClass e = true)
    ∧ (∀ e, load_config src = .error e →
        (lifespanStartup (load_config src)).state ≠ some AppState.ready) := by
  refine ⟨?_, ?_, ?_⟩
  · rintro rfl
    rfl
  · rintro (rfl | rfl)
    · exact ⟨.yamlError, rfl, rfl⟩
    · exact ⟨.valueError, rfl, rfl⟩
  · intro e he
    rw [he]
    simp [lifespanStartup]

/-- Witness for C7 at a missing path and an empty document. -/
theorem C7_config_load_failure_witness :
    load_config .missing = .error .fileNotFoundError
    ∧ (∃ e, load_config (.parsed none) = .error e ∧ configInvalidClass e = true)
    ∧ (lifespanStartup (load_config .missing)).state ≠ some AppState.ready :=
  ⟨(C7_config_load_failure .missing).1 rfl,
   (C7_config_load_failure (.parsed none)).2.1 (Or.inr rfl),
   (C7_config_load_failure .missing).2.2 .fileNotFoundError rfl⟩

/-- Claim C8 is false as stated: with `retina_masks := false` and
`verbose := true` configured, the parameter dictionary still holds
`retina_masks = true` and `verbose = false` — `_load_model` hardcodes
both instead of reading `InferenceConfig`. -/
theorem C8_counterexample :
    (load_model_params { retina_masks := false, verbose := true } "cpu" [0]).retina_masks
        = true
    ∧ ¬((load_model_params { retina_masks := false, verbose := true } "cpu" [0]).retina_masks
        = ({ retina_masks := false, verbose := true } : InferenceConfig).retina_masks)
    ∧ ¬((load_model_params { retina_masks := false, verbose := true } "cpu" [0]).verbose
        = ({ retina_masks := false, verbose := true } : InferenceConfig).verbose) :=
  ⟨rfl, by decide, by decide⟩

/-- Claim C8 (amended, proved): the parameter set passed to the
external model equals the resolved configured values for the
confidence threshold, IoU threshold, image size, half precision,
device, max detections and target classes, while `retina_masks` and
`verbose` are the fixed constants `true` and `false`, not taken from
`InferenceConfig`. -/
theorem C8_amended_model_params (inference_config : InferenceConfig)
    (device : String) (classes_to_detect : List Int) :
    (load_model_params inference_config device classes_to_detect).conf
        = inference_config.conf_threshold
    ∧ (load_model_params inference_config device classes_to_detect).iou
        = inference_config.iou_threshold
    ∧ (load_model_params inference_config device classes_to_detect).imgsz
        = inference_config.img_size
    ∧ (load_model_params inference_config device classes_to_detect).half
        = inference_config.half_precision
    ∧ (load_model_params inference_config device classes_to_detect).device = device
    ∧ (load_model_params inference_config device classes_to_detect).max_det
        = inference_config.max_detections
    ∧ (load_model_params inference_config device classes_to_detect).classes
        = classes_to_detect
    ∧ (load_model_params inference_config device classes_to_detect).retina_masks = true
    ∧ (load_model_params inference_config device classes_to_detect).verbose = false :=
  ⟨rfl, rfl, rfl, rfl, rfl, rfl, rfl, rfl, rfl⟩

/-- Claim C1 is false as stated: with the service ready and a
non-empty upload whose bytes cannot be decoded (`_decode_image_bytes`
raises `ValueError`), POST /detect answers 500 via the generic
`except Exception` handler, not the claimed 400. -/
theorem C1_counterexample :
    detect_person ⟨some AppState.ready, some ⟨[0]⟩⟩ demoDecodeFail demoPredict
        [1] (some "cam.jpg") = .error 500
    ∧ HttpResponse.error 500 ≠ HttpResponse.error 400 :=
  ⟨rfl, by decide⟩

/-- Claim C1 (amended, proved): for a ready service, a non-empty
upload that cannot be decoded fails at the HTTP boundary with status
500 — an error, never a degraded empty result — and an empty
(zero-length) upload fails with 400. -/
theorem C1_amended_http_errors (g : Globals) (m : PersonDetector)
    (decodeOf : List Nat → Except PyError RGBImage)
    (predict : RGBImage → Except PyError (List YoloResult))
    (file_bytes : List Nat) (file_filename : Option String)
    (hs : g.state = some AppState.ready) (hm : g.model = some m)
    (hne : file_bytes ≠ [])
    (hdec : decodeOf file_bytes = .error .valueError) :
    detect_person g decodeOf predict file_bytes file_filename = .error 500
    ∧ detect_person g decodeOf predict [] file_filename = .error 400 := by
  constructor
  · have h := detect_persons_decode_error m.classes_to_detect decodeOf predict
      file_bytes (file_filename.getD "uploaded_image") _ hdec
    simp [detect_person, hs, hm, hne, h, detectExceptClauses]
  · simp [detect_person, hs, hm]

/-- Witness for the amended C1 at concrete inputs. -/
theorem C1_amended_http_errors_witness :
    detect_person ⟨some AppState.ready, some ⟨[0]⟩⟩ demoDecodeFail demoPredict
        [2] (some "door.jpg") = .error 500
    ∧ detect_person ⟨some AppState.ready, some ⟨[0]⟩⟩ demoDecodeFail demoPredict
        [] (some "door.jpg") = .error 400 :=
  C1_amended_http_errors ⟨some AppState.ready, some ⟨[0]⟩⟩ ⟨[0]⟩ demoDecodeFail
    demoPredict [2] (some "door.jpg") rfl rfl (by decide) rfl

/-- Claim C3 is false as stated: model loading is lazy, so a concrete
run whose model load fails (the lazy `_load_model` raises
`RuntimeError` on first use) still transitions to READY; the readiness
probe answers 200, and POST /detect answers a normal 200 with the safe
empty result instead of "not ready". -/
theorem C3_counterexample :
    (lifespanStartup (.ok {})).state = some AppState.ready
    ∧ readiness (lifespanStartup (.ok {})) = 200
    ∧ detect_person (lifespanStartup (.ok {})) demoDecode loadFailPredict
        [1] (some "cam.jpg") = .ok (fallbackResult "cam.jpg") :=
  ⟨rfl, rfl, rfl⟩

/-- Claim C3 (amended, proved): model loading is deferred past
startup, so readiness never observes it: once the configuration loads,
the lifecycle reaches READY and the readiness probe answers 200
regardless of whether the model can be loaded; when the lazy load then
fails during a request, the `RuntimeError` raised by `_load_model` is
caught inside `detect_persons` and converted into the safe empty
result, so the caller sees a normal response rather than "not
ready". -/
theorem C3_amended_lazy_load (doc : ConfigDoc)
    (decodeOf : List Nat → Except PyError RGBImage)
    (predict : RGBImage → Except PyError (List YoloResult))
    (image_bytes : List Nat) (filename : String) (img : RGBImage)
    (hdec : decodeOf image_bytes = .ok img)
    (hfail : predict img = .error .runtimeError) :
    (lifespanStartup (.ok doc)).state = some AppState.ready
    ∧ readiness (lifespanStartup (.ok doc)) = 200
    ∧ detect_persons (get_classes_to_detect doc) decodeOf predict image_bytes filename
        = .ok (fallbackResult filename) := by
  refine ⟨rfl, rfl, ?_⟩
  rw [detect_persons_predict_error _ _ _ _ _ _ _ hdec hfail]
  rfl

/-- Witness for the amended C3 at concrete inputs. -/
theorem C3_amended_lazy_load_witness :
    (lifespanStartup (.ok {})).state = some AppState.ready
    ∧ readiness (lifespanStartup (.ok {})) = 200
    ∧ detect_persons (get_classes_to_detect {}) demoDecode loadFailPredict [3] "porch.jpg"
        = .ok (fallbackResult "porch.jpg") :=
  C3_amended_lazy_load {} demoDecode loadFailPredict [3] "porch.jpg" ⟨[]⟩ rfl rfl

end RingML
